import Mathlib

/-!
Verification of the job-orchestration core of a TTS serverless worker and of
its voice-profile registry.

The embedding follows `handler.py` and `voice_manager.py`. Pure control flow
is translated directly; each effectful collaborator (download, model
inference, `torchaudio.save`, the ffmpeg subprocess, the S3 upload) is
modelled by an environment field recording the outcome that collaborator
produces during one job execution. A raised Python exception inside the
inner pipeline is modelled as `Except.error` of the body computation; the
outer `try/except` of `handler` maps it to the `Handler error: ...` failure
payload, and the `finally` block is the unconditional trace update that
clears the staging directory.
-/

set_option maxHeartbeats 1000000

namespace TTSWorker

/-- Python truthiness of an optional string field: a missing key (`None`)
and the empty string are both falsy, mirroring `if not text:` and
`if ref_audio_path and ref_text:` in the source. -/
def truthy : Option String → Bool
  | none => false
  | some s => !s.isEmpty

/-- The `input` object of a job, fields as documented in `handler`
(lines 249-257 of `handler.py`): `text` required, the rest optional. -/
structure JobInput where
  text : Option String := none
  language : Option String := none
  voice_clone_url : Option String := none
  voice_clone_text : Option String := none
  use_openvoice : Bool := false
  output_format : Option String := none
  deriving DecidableEq

/-- A RunPod job: the payload under `input` plus the job id
(`job.get('id', 'unknown')`). -/
structure Job where
  input : JobInput := {}
  id : Option String := none
  deriving DecidableEq

/-- Message produced when the ffmpeg subprocess exits non-zero:
`subprocess.run(cmd, check=True, ...)` raises `CalledProcessError`
(line 341 of `handler.py`). -/
def ffmpegError : String := "CalledProcessError: ffmpeg returned non-zero exit status"

/-- Outcomes of the effectful collaborators during one job execution.
Each field corresponds to one call site in `handler`:
`download` to `download_file` (returns a path or a message, never raises),
`synth` to `generate_f5_tts` (returns audio or an error message),
`saveExn` to a possible exception raised by `torchaudio.save`,
`openvoice` to `apply_openvoice_cloning`,
`ffmpegOk` to the ffmpeg subprocess exit status, and
`upload` to `upload_to_s3` (returns a URL or an error message). -/
structure Env where
  download : Except String Unit := .ok ()
  synth : Except String Unit := .ok ()
  saveExn : Option String := none
  openvoice : Except String Unit := .ok ()
  ffmpegOk : Bool := true
  upload : Except String String := .ok "https://storage.runpod.io/flowsmartly-avatars/tts/out"

/-- Symbolic content of the audio artifacts staged in the temp directory:
the raw F5-TTS synthesis, the OpenVoice-recolored audio, or a transcode of
one of those. -/
inductive FileContent
  | f5Audio
  | openvoiceAudio
  | transcoded (src : FileContent)
  deriving DecidableEq

/-- Observable side effects of one `handler` invocation: whether the per-job
staging directory was created and whether it still exists at return, which
network calls were attempted, whether synthesis was invoked (and in which
mode: `some true` = voice-cloning, `some false` = default voice), and which
artifact was published. -/
structure Trace where
  tempDirCreated : Bool := false
  tempDirExists : Bool := false
  downloadAttempted : Bool := false
  synthCalled : Option Bool := none
  openvoiceAttempted : Bool := false
  uploadAttempted : Bool := false
  uploadedContent : Option FileContent := none
  deriving DecidableEq

/-- The success payload returned at lines 358-365 of `handler.py`. -/
structure SuccessPayload where
  audio_url : String
  status : String
  model : String
  language : String
  format : String
  job_id : String
  deriving DecidableEq

/-- A job result: exactly one of the two shapes the handler can return. -/
inductive JobResult
  | success (p : SuccessPayload)
  | failure (error : String)
  deriving DecidableEq

/-- Publish stage (lines 346-365): upload the output file; an upload error
becomes the job error result, otherwise the success payload is built, with
the model tag computed from the `use_openvoice` flag alone. -/
def publishStage (ji : JobInput) (job_id : String) (env : Env) (t : Trace)
    (outContent : FileContent) (output_format : String) :
    Except String JobResult × Trace :=
  let t1 := { t with uploadAttempted := true }
  match env.upload with
  | .error e => (.ok (.failure e), t1)
  | .ok url =>
      (.ok (.success {
          audio_url := url
          status := "completed"
          model := "f5-tts" ++ (if ji.use_openvoice then "+openvoice" else "")
          language := ji.language.getD "en"
          format := output_format
          job_id := job_id }),
        { t1 with uploadedContent := some outContent })

/-- Transcode stage (lines 328-344): for `mp3` run ffmpeg with `check=True`,
so a non-zero exit raises (modelled as `Except.error`); for any other format
copy the working WAV unchanged. -/
def transcodeStage (ji : JobInput) (job_id : String) (env : Env) (t : Trace)
    (final_audio : FileContent) : Except String JobResult × Trace :=
  let output_format := ji.output_format.getD "mp3"
  if output_format = "mp3" then
    if env.ffmpegOk then
      publishStage ji job_id env t (.transcoded final_audio) output_format
    else
      (.error ffmpegError, t)
  else
    publishStage ji job_id env t final_audio output_format

/-- Enhancement stage (lines 310-326): only attempted when `use_openvoice`
is set and a reference sample was staged; on failure the pipeline logs a
warning and continues with the F5-TTS output. -/
def enhanceStage (ji : JobInput) (job_id : String) (env : Env) (t : Trace)
    (refPresent : Bool) : Except String JobResult × Trace :=
  if ji.use_openvoice && refPresent then
    let t1 := { t with openvoiceAttempted := true }
    match env.openvoice with
    | .ok _ => transcodeStage ji job_id env t1 .openvoiceAudio
    | .error _ => transcodeStage ji job_id env t1 .f5Audio
  else
    transcodeStage ji job_id env t .f5Audio

/-- Synthesis stage (lines 294-308): `generate_f5_tts` runs in voice-cloning
mode exactly when both the staged reference audio and its transcript are
truthy (line 168 of the source); an error message aborts the job, and the
subsequent `torchaudio.save` may raise. -/
def synthStage (ji : JobInput) (job_id : String) (env : Env) (t : Trace)
    (refPresent : Bool) : Except String JobResult × Trace :=
  let cloning := refPresent && truthy ji.voice_clone_text
  let t1 := { t with synthCalled := some cloning }
  match env.synth with
  | .error e => (.ok (.failure e), t1)
  | .ok _ =>
      match env.saveExn with
      | some e => (.error e, t1)
      | none => enhanceStage ji job_id env t1 refPresent

/-- Body of the inner `try` (lines 281-365): reference acquisition followed
by the remaining stages. A download failure returns the error result
directly; the reference is present for later stages only when the URL was
truthy and the download succeeded. -/
def runBody (ji : JobInput) (job_id : String) (env : Env) (t : Trace) :
    Except String JobResult × Trace :=
  if truthy ji.voice_clone_url then
    let t1 := { t with downloadAttempted := true }
    match env.download with
    | .error e => (.ok (.failure ("Failed to download voice sample: " ++ e)), t1)
    | .ok _ => synthStage ji job_id env t1 true
  else
    synthStage ji job_id env t false

/-- The RunPod handler (lines 245-379): validate `text` before any side
effect, create the staging directory, run the pipeline body, remove the
staging directory in the `finally` block on every path, and map any
uncaught exception to the `Handler error: ...` failure payload. -/
def handler (job : Job) (env : Env) : JobResult × Trace :=
  let job_input := job.input
  let job_id := job.id.getD "unknown"
  if !truthy job_input.text then
    (.failure "text is required", {})
  else
    let r := runBody job_input job_id env { tempDirCreated := true, tempDirExists := true }
    let t := { r.2 with tempDirExists := false }
    match r.1 with
    | .ok res => (res, t)
    | .error e => (.failure ("Handler error: " ++ e), t)

end TTSWorker

namespace VoiceManager

/-- A voice profile record, fields as built at lines 60-69 of
`voice_manager.py`. -/
structure Profile where
  id : String
  user_id : String
  name : String
  voice_sample_url : String
  transcript : String
  language : String
  metadata : List (String × String)
  created_at : String
  deriving DecidableEq

/-- Lookup in the profile catalog, modelling Python dict `get`. -/
def dictLookup (k : String) : List (String × Profile) → Option Profile
  | [] => none
  | (k1, v) :: rest => if k1 = k then some v else dictLookup k rest

/-- Keyed insertion modelling Python dict assignment: an existing key is
overwritten in place, a new key is appended. -/
def dictInsert (k : String) (v : Profile) :
    List (String × Profile) → List (String × Profile)
  | [] => [(k, v)]
  | (k1, v1) :: rest =>
      if k1 = k then (k, v) :: rest else (k1, v1) :: dictInsert k v rest

/-- Keyed removal modelling Python `del d[k]`. -/
def dictErase (k : String) : List (String × Profile) → List (String × Profile)
  | [] => []
  | (k1, v1) :: rest => if k1 = k then rest else (k1, v1) :: dictErase k rest

/-- State of one `VoiceManager`: the in-memory catalog plus the number of
times the backing document has been rewritten by `_save_profiles`. -/
structure RegistryState where
  profiles : List (String × Profile)
  saveCount : Nat
  deriving DecidableEq

/-- Path of the backing document, `self.profiles_file`. -/
def profiles_file : String := "/workspace/voices/profiles.json"

/-- Model of the expression `Path.ctime(self.profiles_file)` at line 68 of
`voice_manager.py`: `pathlib.Path` has no attribute `ctime` in any released
Python, so the attribute lookup itself raises `AttributeError` before the
file is even consulted. -/
def Path_ctime (_p : String) : Except String String :=
  .error "AttributeError: type object Path has no attribute ctime"

/-- Translation of `create_profile` (lines 35-74): the id is derived from
the owner, the name, and the current catalog size, after which the record
is built; building the record evaluates `Path.ctime(...)`, which raises. -/
def create_profile (s : RegistryState)
    (user_id profile_name voice_sample_url transcript language : String)
    (metadata : List (String × String)) :
    Except String (Profile × RegistryState) :=
  let profile_id := user_id ++ "_" ++ profile_name ++ "_" ++ toString s.profiles.length
  match Path_ctime profiles_file with
  | .error e => .error e
  | .ok created_at =>
      let profile : Profile := {
        id := profile_id
        user_id := user_id
        name := profile_name
        voice_sample_url := voice_sample_url
        transcript := transcript
        language := language
        metadata := metadata
        created_at := created_at }
      .ok (profile,
        { profiles := dictInsert profile_id profile s.profiles
          saveCount := s.saveCount + 1 })

/-- Translation of `get_profile` (lines 76-78). -/
def get_profile (s : RegistryState) (profile_id : String) : Option Profile :=
  dictLookup profile_id s.profiles

/-- Translation of `delete_profile` (lines 87-93): remove and persist when
the id is present, otherwise return false with no state change. -/
def delete_profile (s : RegistryState) (profile_id : String) :
    Bool × RegistryState :=
  if (dictLookup profile_id s.profiles).isSome then
    (true,
      { profiles := dictErase profile_id s.profiles
        saveCount := s.saveCount + 1 })
  else
    (false, s)

end VoiceManager

namespace TTSWorker

/-- Concrete job with only the required `text` field. -/
def wJob : Job := { input := { text := some "Hello world" }, id := some "job-1" }

/-- Environment in which every collaborator succeeds. -/
def wEnvOk : Env := {}

/-- Environment in which only the ffmpeg transcode fails. -/
def wEnvFfmpegFail : Env := { ffmpegOk := false }

/-- Environment in which `torchaudio.save` raises mid-pipeline. -/
def wEnvExn : Env := { saveExn := some "RuntimeError: CUDA error" }

/-- Voice-cloning job requesting OpenVoice enhancement. -/
def wJob3 : Job :=
  { input := { text := some "Hi", voice_clone_url := some "https://x/ref.wav",
               voice_clone_text := some "a reference transcript", use_openvoice := true },
    id := some "job-3" }

/-- Environment in which only the OpenVoice enhancement fails. -/
def wEnv3 : Env := { openvoice := .error "OpenVoice cloning failed: boom" }

/-- Job whose `text` field is empty. -/
def wJob4 : Job := { input := { text := some "" } }

/-- Job with a voice-clone URL but no transcript for it. -/
def wJob6 : Job :=
  { input := { text := some "Hi", voice_clone_url := some "https://x/ref.wav" },
    id := some "job-6" }

/-- Job with both a voice-clone URL and its transcript. -/
def wJob6c : Job :=
  { input := { text := some "Hi", voice_clone_url := some "https://x/ref.wav",
               voice_clone_text := some "tr" },
    id := some "job-6c" }

/-- Job requesting OpenVoice enhancement without any reference sample. -/
def wJob9 : Job := { input := { text := some "Hi", use_openvoice := true }, id := some "job-9" }

/-- Payload the handler produces for `wJob9` under `wEnvOk`. -/
def wPayload9 : SuccessPayload :=
  { audio_url := "https://storage.runpod.io/flowsmartly-avatars/tts/out"
    status := "completed"
    model := "f5-tts+openvoice"
    language := "en"
    format := "mp3"
    job_id := "job-9" }

/-- Environment for the C1 amended-claim witness: enhancement fails and the
transcode fails. -/
def wEnvC1 : Env := { ffmpegOk := false, openvoice := .error "OpenVoice cloning failed: x" }

end TTSWorker

namespace VoiceManager

/-- Empty registry, as after constructing a `VoiceManager` over a fresh
storage directory. -/
def vmEmpty : RegistryState := { profiles := [], saveCount := 0 }

/-- A concrete stored profile. -/
def wProfile : Profile :=
  { id := "u_n_0", user_id := "u", name := "n",
    voice_sample_url := "https://x/y.wav", transcript := "t", language := "en",
    metadata := [], created_at := "0" }

/-- Registry holding exactly one profile. -/
def vmOne : RegistryState := { profiles := [("u_n_0", wProfile)], saveCount := 1 }

end VoiceManager

namespace TTSWorker

theorem publishStage_tempDirCreated (ji : JobInput) (jid : String) (env : Env)
    (t : Trace) (c : FileContent) (f : String) :
    ((publishStage ji jid env t c f).2).tempDirCreated = t.tempDirCreated := by
  cases hu : env.upload <;> simp [publishStage, hu]

theorem publishStage_synthCalled (ji : JobInput) (jid : String) (env : Env)
    (t : Trace) (c : FileContent) (f : String) :
    ((publishStage ji jid env t c f).2).synthCalled = t.synthCalled := by
  cases hu : env.upload <;> simp [publishStage, hu]

theorem transcodeStage_tempDirCreated (ji : JobInput) (jid : String) (env : Env)
    (t : Trace) (c : FileContent) :
    ((transcodeStage ji jid env t c).2).tempDirCreated = t.tempDirCreated := by
  simp only [transcodeStage]
  split
  · split
    · exact publishStage_tempDirCreated ji jid env t _ _
    · rfl
  · exact publishStage_tempDirCreated ji jid env t _ _

theorem transcodeStage_synthCalled (ji : JobInput) (jid : String) (env : Env)
    (t : Trace) (c : FileContent) :
    ((transcodeStage ji jid env t c).2).synthCalled = t.synthCalled := by
  simp only [transcodeStage]
  split
  · split
    · exact publishStage_synthCalled ji jid env t _ _
    · rfl
  · exact publishStage_synthCalled ji jid env t _ _

theorem enhanceStage_tempDirCreated (ji : JobInput) (jid : String) (env : Env)
    (t : Trace) (refP : Bool) :
    ((enhanceStage ji jid env t refP).2).tempDirCreated = t.tempDirCreated := by
  simp only [enhanceStage]
  split
  · cases hov : env.openvoice <;>
      simp [transcodeStage_tempDirCreated]
  · exact transcodeStage_tempDirCreated ji jid env t _

theorem enhanceStage_synthCalled (ji : JobInput) (jid : String) (env : Env)
    (t : Trace) (refP : Bool) :
    ((enhanceStage ji jid env t refP).2).synthCalled = t.synthCalled := by
  simp only [enhanceStage]
  split
  · cases hov : env.openvoice <;>
      simp [transcodeStage_synthCalled]
  · exact transcodeStage_synthCalled ji jid env t _

theorem synthStage_tempDirCreated (ji : JobInput) (jid : String) (env : Env)
    (t : Trace) (refP : Bool) :
    ((synthStage ji jid env t refP).2).tempDirCreated = t.tempDirCreated := by
  simp only [synthStage]
  cases hs : env.synth
  · simp
  · cases hsv : env.saveExn <;> simp [enhanceStage_tempDirCreated]

theorem synthStage_synthCalled (ji : JobInput) (jid : String) (env : Env)
    (t : Trace) (refP : Bool) :
    ((synthStage ji jid env t refP).2).synthCalled =
      some (refP && truthy ji.voice_clone_text) := by
  simp only [synthStage]
  cases hs : env.synth
  · simp
  · cases hsv : env.saveExn <;> simp [enhanceStage_synthCalled]

theorem runBody_tempDirCreated (ji : JobInput) (jid : String) (env : Env) (t : Trace) :
    ((runBody ji jid env t).2).tempDirCreated = t.tempDirCreated := by
  simp only [runBody]
  split
  · cases hd : env.download <;> simp [synthStage_tempDirCreated]
  · exact synthStage_tempDirCreated ji jid env t false

theorem publishStage_success_shape (ji : JobInput) (jid : String) (env : Env)
    (t : Trace) (c : FileContent) (f : String) (p : SuccessPayload)
    (h : (publishStage ji jid env t c f).1 = .ok (.success p)) :
    p.status = "completed" ∧
    p.model = "f5-tts" ++ (if ji.use_openvoice then "+openvoice" else "") := by
  cases hu : env.upload <;> simp [publishStage, hu] at h
  subst h
  exact ⟨rfl, rfl⟩

theorem transcodeStage_success_shape (ji : JobInput) (jid : String) (env : Env)
    (t : Trace) (c : FileContent) (p : SuccessPayload)
    (h : (transcodeStage ji jid env t c).1 = .ok (.success p)) :
    p.status = "completed" ∧
    p.model = "f5-tts" ++ (if ji.use_openvoice then "+openvoice" else "") := by
  simp only [transcodeStage] at h
  split at h
  · split at h
    · exact publishStage_success_shape ji jid env t _ _ p h
    · simp at h
  · exact publishStage_success_shape ji jid env t _ _ p h

theorem enhanceStage_success_shape (ji : JobInput) (jid : String) (env : Env)
    (t : Trace) (refP : Bool) (p : SuccessPayload)
    (h : (enhanceStage ji jid env t refP).1 = .ok (.success p)) :
    p.status = "completed" ∧
    p.model = "f5-tts" ++ (if ji.use_openvoice then "+openvoice" else "") := by
  simp only [enhanceStage] at h
  split at h
  · cases hov : env.openvoice <;> simp only [hov] at h <;>
      exact transcodeStage_success_shape ji jid env _ _ p h
  · exact transcodeStage_success_shape ji jid env t _ p h

theorem synthStage_success_shape (ji : JobInput) (jid : String) (env : Env)
    (t : Trace) (refP : Bool) (p : SuccessPayload)
    (h : (synthStage ji jid env t refP).1 = .ok (.success p)) :
    p.status = "completed" ∧
    p.model = "f5-tts" ++ (if ji.use_openvoice then "+openvoice" else "") := by
  simp only [synthStage] at h
  cases hs : env.synth <;> simp only [hs] at h
  · simp at h
  · cases hsv : env.saveExn <;> simp only [hsv] at h
    · exact enhanceStage_success_shape ji jid env _ refP p h
    · simp at h

theorem runBody_success_shape (ji : JobInput) (jid : String) (env : Env)
    (t : Trace) (p : SuccessPayload)
    (h : (runBody ji jid env t).1 = .ok (.success p)) :
    p.status = "completed" ∧
    p.model = "f5-tts" ++ (if ji.use_openvoice then "+openvoice" else "") := by
  simp only [runBody] at h
  split at h
  · cases hd : env.download <;> simp only [hd] at h
    · simp at h
    · exact synthStage_success_shape ji jid env _ true p h
  · exact synthStage_success_shape ji jid env t false p h

theorem handler_success_shape (job : Job) (env : Env) (p : SuccessPayload)
    (h : (handler job env).1 = JobResult.success p) :
    p.status = "completed" ∧
    p.model = "f5-tts" ++ (if job.input.use_openvoice then "+openvoice" else "") := by
  by_cases ht : truthy job.input.text = true
  · simp only [handler, ht, Bool.not_true, Bool.false_eq_true, if_false] at h
    cases hr : (runBody job.input (job.id.getD "unknown") env
        { tempDirCreated := true, tempDirExists := true }).1 <;> simp only [hr] at h
    · exact (JobResult.noConfusion h)
    · subst h
      exact runBody_success_shape job.input (job.id.getD "unknown") env _ p hr
  · simp only [Bool.not_eq_true] at ht
    simp [handler, ht] at h

theorem runBody_synthCalled (ji : JobInput) (jid : String) (env : Env) (t : Trace) :
    ((runBody ji jid env t).2).synthCalled = t.synthCalled ∨
    ((runBody ji jid env t).2).synthCalled =
      some (truthy ji.voice_clone_url && truthy ji.voice_clone_text) := by
  simp only [runBody]
  split
  · rename_i hurl
    cases hd : env.download
    · left
      simp
    · right
      simp [synthStage_synthCalled, hurl]
  · rename_i hurl
    right
    rw [synthStage_synthCalled]
    simp only [Bool.not_eq_true] at hurl
    simp [hurl]

theorem handler_trace (job : Job) (env : Env) (ht : truthy job.input.text = true) :
    (handler job env).2 =
      { (runBody job.input (job.id.getD "unknown") env
          { tempDirCreated := true, tempDirExists := true }).2 with
        tempDirExists := false } := by
  simp only [handler, ht, Bool.not_true, Bool.false_eq_true, if_false]
  cases hr : (runBody job.input (job.id.getD "unknown") env
      { tempDirCreated := true, tempDirExists := true }).1 <;> simp [hr]

/-- C1 counterexample: for an mp3 job in which only the ffmpeg transcode
fails (download, synthesis, enhancement and upload would all succeed), the
handler returns an error result and never attempts the upload — refuting
the claim that it falls back to publishing the pre-transcode WAV with a
success result. The `CalledProcessError` raised by
`subprocess.run(check=True)` escapes the inner pipeline and is caught only
by the top-level handler. -/
theorem C1_counterexample :
    (handler wJob wEnvFfmpegFail).1 =
      JobResult.failure "Handler error: CalledProcessError: ffmpeg returned non-zero exit status" ∧
    (handler wJob wEnvFfmpegFail).2.uploadAttempted = false := by
  decide

/-- C1 (amended): for every job that passes validation and requests the mp3
output format, if the ffmpeg transcode fails then `handler` aborts the job:
the raised `CalledProcessError` propagates to the top-level exception
handler, which returns the failure payload `Handler error: ...`; the
original WAV is not published and no upload is attempted. -/
theorem C1_transcode_failure_aborts (job : Job) (env : Env)
    (ht : truthy job.input.text = true)
    (hf : job.input.output_format.getD "mp3" = "mp3")
    (hd : env.download = .ok ())
    (hs : env.synth = .ok ())
    (hsv : env.saveExn = none)
    (hff : env.ffmpegOk = false) :
    (handler job env).1 = JobResult.failure ("Handler error: " ++ ffmpegError) ∧
    (handler job env).2.uploadAttempted = false := by
  by_cases hurl : truthy job.input.voice_clone_url = true <;>
  by_cases huo : job.input.use_openvoice = true <;>
  cases hov : env.openvoice <;>
  simp [handler, runBody, synthStage, enhanceStage, transcodeStage, publishStage,
    ht, hf, hd, hs, hsv, hff, hurl, huo, hov]

/-- C1 witness for the amended claim, at a concrete voice-cloning job with
enhancement also failing. -/
theorem C1_transcode_failure_aborts_witness :
    (handler wJob3 wEnvC1).1 = JobResult.failure ("Handler error: " ++ ffmpegError) ∧
    (handler wJob3 wEnvC1).2.uploadAttempted = false :=
  C1_transcode_failure_aborts wJob3 wEnvC1 (by decide) (by decide) rfl rfl rfl rfl

/-- C2: for every job that passes input validation, the staging directory
is created and is no longer present when `handler` returns, whatever the
outcome of every later stage, including a mid-pipeline exception. -/
theorem C2_staging_cleanup (job : Job) (env : Env)
    (ht : truthy job.input.text = true) :
    (handler job env).2.tempDirCreated = true ∧
    (handler job env).2.tempDirExists = false := by
  rw [handler_trace job env ht]
  constructor
  · simp [runBody_tempDirCreated]
  · rfl

/-- C2 witness: a concrete job in which `torchaudio.save` raises
mid-pipeline; the staging directory was created and is gone afterwards. -/
theorem C2_staging_cleanup_witness :
    (handler wJob wEnvExn).2.tempDirCreated = true ∧
    (handler wJob wEnvExn).2.tempDirExists = false :=
  C2_staging_cleanup wJob wEnvExn (by decide)

/-- C3: when enhancement is requested, a reference sample is staged,
synthesis and the later stages succeed, but OpenVoice enhancement fails,
the job still completes: the result is the success payload with
`status = "completed"` and the published artifact derives from the
pre-enhancement F5-TTS audio; the enhancement error message never becomes
the job result. -/
theorem C3_enhancement_failure_absorbed (job : Job) (env : Env) (w u : String)
    (ht : truthy job.input.text = true)
    (huo : job.input.use_openvoice = true)
    (hurl : truthy job.input.voice_clone_url = true)
    (hd : env.download = .ok ())
    (hs : env.synth = .ok ())
    (hsv : env.saveExn = none)
    (hov : env.openvoice = .error w)
    (hup : env.upload = .ok u)
    (hok : job.input.output_format.getD "mp3" = "mp3" → env.ffmpegOk = true) :
    (handler job env).1 =
      JobResult.success
        { audio_url := u
          status := "completed"
          model := "f5-tts+openvoice"
          language := job.input.language.getD "en"
          format := job.input.output_format.getD "mp3"
          job_id := job.id.getD "unknown" } ∧
    (handler job env).2.uploadedContent =
      some (if job.input.output_format.getD "mp3" = "mp3"
            then FileContent.transcoded FileContent.f5Audio
            else FileContent.f5Audio) := by
  by_cases hf : job.input.output_format.getD "mp3" = "mp3"
  · have hff := hok hf
    simp [handler, runBody, synthStage, enhanceStage, transcodeStage, publishStage,
      ht, huo, hurl, hd, hs, hsv, hov, hup, hf, hff]
  · simp [handler, runBody, synthStage, enhanceStage, transcodeStage, publishStage,
      ht, huo, hurl, hd, hs, hsv, hov, hup, hf]

/-- C3 witness at a concrete cloning job whose OpenVoice stage fails. -/
theorem C3_enhancement_failure_absorbed_witness :
    (handler wJob3 wEnv3).1 =
      JobResult.success
        { audio_url := "https://storage.runpod.io/flowsmartly-avatars/tts/out"
          status := "completed"
          model := "f5-tts+openvoice"
          language := "en"
          format := "mp3"
          job_id := "job-3" } ∧
    (handler wJob3 wEnv3).2.uploadedContent =
      some (FileContent.transcoded FileContent.f5Audio) :=
  C3_enhancement_failure_absorbed wJob3 wEnv3 "OpenVoice cloning failed: boom"
    "https://storage.runpod.io/flowsmartly-avatars/tts/out"
    (by decide) rfl (by decide) rfl rfl rfl rfl rfl (fun _ => rfl)

/-- C4: a job whose `text` field is absent or empty yields the validation
error result with no side effect: no staging directory, no download, no
synthesis call, no upload. -/
theorem C4_validation_before_side_effects (job : Job) (env : Env)
    (h : truthy job.input.text = false) :
    (handler job env).1 = JobResult.failure "text is required" ∧
    (handler job env).2.tempDirCreated = false ∧
    (handler job env).2.downloadAttempted = false ∧
    (handler job env).2.synthCalled = none ∧
    (handler job env).2.uploadAttempted = false := by
  simp [handler, h]

/-- C4 witness: a concrete job with empty text. -/
theorem C4_validation_before_side_effects_witness :
    (handler wJob4 wEnvOk).1 = JobResult.failure "text is required" ∧
    (handler wJob4 wEnvOk).2.tempDirCreated = false ∧
    (handler wJob4 wEnvOk).2.downloadAttempted = false ∧
    (handler wJob4 wEnvOk).2.synthCalled = none ∧
    (handler wJob4 wEnvOk).2.uploadAttempted = false :=
  C4_validation_before_side_effects wJob4 wEnvOk (by decide)

/-- C5: for every job input and every combination of collaborator outcomes
(including raised exceptions), `handler` returns exactly one well-formed
result: either a failure payload carrying an error string, or a success
payload whose status is `completed`; no exception escapes. -/
theorem C5_single_wellformed_result (job : Job) (env : Env) :
    (∃ e, (handler job env).1 = JobResult.failure e) ∨
    (∃ p, (handler job env).1 = JobResult.success p ∧ p.status = "completed") := by
  cases h : (handler job env).1 with
  | success p => exact Or.inr ⟨p, rfl, (handler_success_shape job env p h).1⟩
  | failure e => exact Or.inl ⟨e, rfl⟩

/-- C6 counterexample: a job whose `voice_clone_url` is present but whose
`voice_clone_text` is absent; the reference is downloaded, yet synthesis is
invoked in default-voice mode (`some false`), refuting the claim that
cloning mode is active if and only if `voiceCloneUrl` is present. -/
theorem C6_counterexample :
    truthy wJob6.input.voice_clone_url = true ∧
    (handler wJob6 wEnvOk).2.synthCalled = some false := by
  decide

/-- C6 (amended): whenever synthesis is invoked, it runs in voice-cloning
mode exactly when both `voice_clone_url` and `voice_clone_text` are present
and non-empty (a download failure aborts the job before synthesis). -/
theorem C6_cloning_mode_iff (job : Job) (env : Env) (m : Bool)
    (h : (handler job env).2.synthCalled = some m) :
    m = (truthy job.input.voice_clone_url && truthy job.input.voice_clone_text) := by
  by_cases ht : truthy job.input.text = true
  · rw [handler_trace job env ht] at h
    simp only [Trace.synthCalled] at h
    rcases runBody_synthCalled job.input (job.id.getD "unknown") env
        { tempDirCreated := true, tempDirExists := true } with hc | hc
    · rw [hc] at h
      simp at h
    · rw [hc] at h
      injection h with h
      exact h.symm
  · simp only [Bool.not_eq_true] at ht
    simp [handler, ht] at h

/-- C6 witness for the amended claim: with both URL and transcript present,
synthesis runs in cloning mode. -/
theorem C6_cloning_mode_iff_witness :
    true = (truthy wJob6c.input.voice_clone_url && truthy wJob6c.input.voice_clone_text) :=
  C6_cloning_mode_iff wJob6c wEnvOk true (by decide)

/-- C9: the model tag of every success payload is determined by the
`use_openvoice` request flag alone — `f5-tts+openvoice` when the flag is
set and `f5-tts` otherwise — independently of whether the enhancement stage
ran, was skipped, or failed. -/
theorem C9_model_tag_from_flag (job : Job) (env : Env) (p : SuccessPayload)
    (h : (handler job env).1 = JobResult.success p) :
    p.model = "f5-tts" ++ (if job.input.use_openvoice then "+openvoice" else "") :=
  (handler_success_shape job env p h).2

/-- C9 witness: a job with `use_openvoice` set but no reference sample, so
enhancement is skipped, yet the tag still reads `f5-tts+openvoice`. -/
theorem C9_model_tag_from_flag_witness :
    wPayload9.model = "f5-tts" ++ (if wJob9.input.use_openvoice then "+openvoice" else "") :=
  C9_model_tag_from_flag wJob9 wEnvOk wPayload9 (by decide)

end TTSWorker

namespace VoiceManager

/-- C7: evaluating `create_profile` at the specification scenario input on
a fresh registry raises `AttributeError` at the `created_at` line
(`Path.ctime` does not exist on `pathlib.Path`), so the create-then-read
round trip never happens. -/
theorem C7_create_profile_raises :
    create_profile vmEmpty "u1" "MyVoice" "https://x/y.wav" "transcript" "en" [] =
      Except.error "AttributeError: type object Path has no attribute ctime" := rfl

/-- C8: deleting a profile id that is absent from the catalog returns
false and leaves the registry state — catalog and backing-document write
count — completely unchanged. -/
theorem C8_delete_absent_noop (s : RegistryState) (pid : String)
    (h : get_profile s pid = none) :
    delete_profile s pid = (false, s) := by
  unfold get_profile at h
  simp [delete_profile, h]

/-- C8 witness: deleting a missing id from a one-profile registry. -/
theorem C8_delete_absent_noop_witness :
    delete_profile vmOne "missing" = (false, vmOne) :=
  C8_delete_absent_noop vmOne "missing" (by decide)

/-- C10: for every registry state and every choice of arguments,
`create_profile` raises `AttributeError` before reaching the insertion
statement, so the claimed store-under-derived-id (and the silent
replacement on id collision) never takes place: nothing is ever stored. -/
theorem C10_create_profile_never_stores (s : RegistryState)
    (user_id profile_name voice_sample_url transcript language : String)
    (metadata : List (String × String)) :
    create_profile s user_id profile_name voice_sample_url transcript language metadata =
      Except.error "AttributeError: type object Path has no attribute ctime" := rfl

end VoiceManager
